import Mathlib

/-!
Verification of the checkly-mcp core: the guarded-update workflow, the
triggered-run await workflow, and the shared read-only access gate,
shallowly embedded from `src/client.ts` (the concatenation of
`client.ts`, `index.ts` and `tools/checks.ts`).

JSON values are modelled by the inductive `Value`; a JSON object is an
association list `List (String × Value)` with first-match lookup
(`lookupA`), which is how JS property access behaves on the unique-key
objects produced by JSON decoding.  Remote I/O is modelled by passing the
remote responses as explicit arguments and returning, next to the result,
the list of remote calls the workflow issued (with, for the run workflow,
the idealized time in milliseconds at which each call is issued: the
3-second sleeps are the only time that passes).
-/

/-- A JSON value.  Update requests only ever carry strings, booleans and
numbers; entity fields fetched from the remote service may additionally be
null, arrays or nested objects, which the workflows treat as opaque
payload: `mixed` stands for such a value, the tag modelling its identity
(JS strict equality compares arrays and objects by reference, and a
primitive is never strictly equal to one). -/
inductive Value where
  | str (s : String)
  | num (n : Int)
  | bool (b : Bool)
  | null
  | mixed (tag : Nat)
deriving DecidableEq, Repr

/-- First-match lookup in an association list: JS property access on a
decoded JSON object. -/
def lookupA {α : Type} : List (String × α) → String → Option α
  | [], _ => none
  | p :: rest, k => if p.1 = k then some p.2 else lookupA rest k

/-- The process configuration, from `getConfig` in `client.ts`. -/
structure ChecklyConfig where
  apiKey : String
  accountId : String
  readOnly : Bool
deriving DecidableEq, Repr

/-- JS falsiness of an environment variable (`!apiKey`): undefined or the
empty string. -/
def isFalsy : Option String → Bool
  | none => true
  | some s => s == ""

/-- Embedding of `getConfig` (`client.ts`): the three environment
variables are passed explicitly; a thrown `Error` becomes `Except.error`.
The read-only gate is `process.env.CHECKLY_READ_ONLY !== "false"`. -/
def getConfig (apiKey accountId readOnlyVar : Option String) :
    Except String ChecklyConfig :=
  if isFalsy apiKey then .error "CHECKLY_API_KEY env var required"
  else if isFalsy accountId then .error "CHECKLY_ACCOUNT_ID env var required"
  else .ok { apiKey := apiKey.getD "", accountId := accountId.getD "",
             readOnly := readOnlyVar != some "false" }

/-- The sparse update request of `update_check` (`tools/checks.ts`):
option-typed fields, `none` meaning the field is absent from the
request. -/
structure UpdateRequest where
  script : Option String
  name : Option String
  activated : Option Bool
  frequency : Option Int
deriving DecidableEq, Repr

/-- The `Object.entries(updates)` iteration of the diff loop restricted to
defined values (`v !== undefined`), in the key order of the object literal
built by the `update_check` tool handler in `index.ts`. -/
def UpdateRequest.entries (u : UpdateRequest) : List (String × Value) :=
  (u.script.toList.map fun s => ("script", Value.str s)) ++
  (u.name.toList.map fun s => ("name", Value.str s)) ++
  (u.activated.toList.map fun b => ("activated", Value.bool b)) ++
  (u.frequency.toList.map fun n => ("frequency", Value.num n))

/-- JS property access `updates[k]` on the update request (undefined is
`none`). -/
def UpdateRequest.get (u : UpdateRequest) (k : String) : Option Value :=
  lookupA u.entries k

/-- The four keys of the updates object literal built by the tool handler
in `index.ts`; the handler always materializes all four keys, absent
request fields appearing with the value `undefined`. -/
def settableKeys : List String := ["script", "name", "activated", "frequency"]

/-- JS `String.prototype.slice(0, n)`. -/
def jsSlice (s : String) (n : Nat) : String := String.mk (s.data.take n)

/-- The display truncation of the diff loop in `updateCheck`: a string
longer than 120 characters is cut to 120 characters and suffixed with an
ellipsis; every other value passes through unchanged. -/
def truncVal : Value → Value
  | .str s => if 120 < s.length then .str (jsSlice s 120 ++ "…") else .str s
  | v => v

/-- One entry of the human-readable diff: the displayed (truncated)
current value (`none` when the entity lacks the field) and the displayed
(truncated) proposed value. -/
structure DiffEntry where
  fromVal : Option Value
  toVal : Value
deriving DecidableEq, Repr

/-- The diff loop of `updateCheck` (`tools/checks.ts`): over the defined
entries of the update request, keep every field whose requested value
differs from the current one (`current[k] !== v`), recording
display-truncated values. -/
def computeDiff (current : List (String × Value)) (u : UpdateRequest) :
    List (String × DiffEntry) :=
  u.entries.filterMap fun p =>
    if lookupA current p.1 = some p.2 then none
    else some (p.1, { fromVal := (lookupA current p.1).map truncVal,
                      toVal := truncVal p.2 })

/-- The object spread `\x7b ...current, ...updates \x7d` of `updateCheck`,
where `updates` is the four-key object built by the tool handler: keys of
`current` in order, every settable key overridden by the updates object's
value (which is `undefined`, i.e. `none`, for fields absent from the
request), followed by the settable keys not present in `current`, in the
object literal's key order. -/
def jsSpread (current : List (String × Value)) (u : UpdateRequest) :
    List (String × Option Value) :=
  (current.map fun p =>
    if p.1 ∈ settableKeys then (p.1, u.get p.1) else (p.1, some p.2)) ++
  ((settableKeys.filter fun k => (lookupA current k).isNone).map
    fun k => (k, u.get k))

/-- `JSON.stringify` on an object drops every key whose value is
`undefined`. -/
def dropUndef (l : List (String × Option Value)) : List (String × Value) :=
  l.filterMap fun p => p.2.map fun v => (p.1, v)

/-- The serialized PUT body `updateCheck` writes: the spread payload after
`JSON.stringify` has dropped the `undefined`-valued keys. -/
def putBody (current : List (String × Value)) (u : UpdateRequest) :
    List (String × Value) :=
  dropUndef (jsSpread current u)

/-- Results of the guarded update workflow, mirroring the object shapes
returned by `updateCheck`.  The denied and not-triggered outcomes are
returned values carrying an `error` field, not thrown exceptions. -/
inductive UpdateResult where
  | denied (error : String)
  | noChanges (message : String) (diff : List (String × DiffEntry))
  | dryRun (message : String) (checkId : String) (checkName : Option Value)
      (diff : List (String × DiffEntry))
  | applied (message : String) (checkId checkName updatedAt : Option Value)
      (diff : List (String × DiffEntry))
deriving DecidableEq, Repr

/-- Remote calls the guarded update workflow can issue. -/
inductive UpdateCall where
  | fetch (id : String)
  | put (id : String) (payload : List (String × Value))
deriving DecidableEq, Repr

/-- The read-only denial message shared by both workflows. -/
def readOnlyError : String :=
  "Server is in read-only mode. Set CHECKLY_READ_ONLY=false to enable writes."

/-- Embedding of `updateCheck` (`tools/checks.ts`), as invoked by the
`update_check` tool handler.  `current` is the entity the fetch returns
and `putResp` the entity the PUT returns; the second component of the
result lists the remote calls issued, in order. -/
def updateCheck (readOnly : Bool) (id : String) (u : UpdateRequest)
    (confirm : Bool) (current putResp : List (String × Value)) :
    UpdateResult × List UpdateCall :=
  if readOnly then (.denied readOnlyError, [])
  else
    let diff := computeDiff current u
    if diff.isEmpty then
      (.noChanges "No changes detected." [], [.fetch id])
    else if !confirm then
      (.dryRun "Dry run — pass confirm: true to apply." id
        (lookupA current "name") diff, [.fetch id])
    else
      (.applied "Check updated successfully." (lookupA putResp "id")
        (lookupA putResp "name") (lookupA putResp "updatedAt") diff,
       [.fetch id, .put id (putBody current u)])

/-- The status union of a run session (`tools/checks.ts`). -/
inductive SessionStatus where
  | PROGRESS
  | PASSED
  | FAILED
deriving DecidableEq, Repr

/-- The string the status serializes as (used in the completion
message interpolation). -/
def statusText : SessionStatus → String
  | .PROGRESS => "PROGRESS"
  | .PASSED => "PASSED"
  | .FAILED => "FAILED"

/-- A run session as returned by the trigger and poll endpoints
(`CheckSession` in `tools/checks.ts`). -/
structure CheckSession where
  checkSessionId : String
  checkSessionLink : String
  checkId : String
  checkType : String
  name : String
  status : SessionStatus
  startedAt : String
  stoppedAt : Option String
  timeElapsed : Int
  runLocations : List String
  results : Option (List Value)
deriving DecidableEq, Repr

/-- Results of the triggered-run workflow, mirroring the object shapes
returned by `runCheck`.  Denied and not-triggered outcomes are returned
values with an `error` field, not thrown exceptions. -/
inductive RunResult where
  | denied (error : String)
  | notTriggered (error : String) (checkId : String)
  | triggered (message checkId checkName sessionId : String)
      (status : SessionStatus) (runLocations : List String)
      (startedAt link hint : String)
  | completed (message checkId checkName sessionId : String)
      (status : SessionStatus) (runLocations : List String)
      (startedAt : String) (stoppedAt : Option String) (timeElapsedMs : Int)
      (link : String) (results : List Value)
  | timedOut (message sessionId link hint : String)
deriving DecidableEq, Repr

/-- Remote calls the triggered-run workflow can issue. -/
inductive RunCall where
  | trigger (id : String)
  | poll (sessionId : String)
deriving DecidableEq, Repr

/-- The not-triggerable error message of `runCheck`. -/
def notTriggeredError : String :=
  "Check was not triggered. It may be deactivated or belong to an inactive check group."

/-- The hint attached to the immediate (non-awaited) trigger result. -/
def pollHint : String :=
  "Poll with get_session_status(sessionId) or wait and call get_check_results(checkId)."

/-- The completion result the poll loop builds from the polled session. -/
def completedResult (s : CheckSession) : RunResult :=
  .completed ("Check completed: " ++ statusText s.status) s.checkId s.name
    s.checkSessionId s.status s.runLocations s.startedAt s.stoppedAt
    s.timeElapsed s.checkSessionLink (s.results.getD [])

/-- The timeout result of the poll loop: session id and reference link
with a still-running hint. -/
def timedOutResult (sessionId link : String) : RunResult :=
  .timedOut "Timed out waiting for check to complete (120s)." sessionId link
    "Check is still running. Use checkSessionLink to view in Checkly UI."

/-- The poll loop of `runCheck`: `elapsed` is the idealized wall-clock
time in milliseconds since loop entry (the loop head checks
`Date.now() < deadline` with a 120 000 ms deadline), and `n` is the index
of the next poll; each iteration sleeps 3 000 ms and then fetches the
session (`poll n` is the response to the n-th poll, issued at time
`elapsed + 3000`).  A non-`PROGRESS` polled status terminates the loop
with the completion result built from that polled session.  The second
component lists the poll calls issued, each with its issue time. -/
def pollLoopAux (poll : Nat → CheckSession) (sessionId link : String)
    (elapsed n : Nat) : RunResult × List (Nat × RunCall) :=
  if h : elapsed < 120000 then
    if (poll n).status = SessionStatus.PROGRESS then
      ((pollLoopAux poll sessionId link (elapsed + 3000) (n + 1)).1,
       (elapsed + 3000, RunCall.poll sessionId) ::
       (pollLoopAux poll sessionId link (elapsed + 3000) (n + 1)).2)
    else
      (completedResult (poll n), [(elapsed + 3000, RunCall.poll sessionId)])
  else
    (timedOutResult sessionId link, [])
termination_by 120000 - elapsed
decreasing_by omega

/-- Embedding of `runCheck` (`tools/checks.ts`).  `triggerResp` is the
trigger response's `sessions` field (`none` when the response has no such
field: the code reads `response.sessions ?? []`); `poll` gives the
successive poll responses.  The second component lists the remote calls
issued with their idealized issue times: the trigger at time 0, the n-th
poll at time 3000·n. -/
def runCheck (readOnly : Bool) (id : String) (awaitResult : Bool)
    (triggerResp : Option (List CheckSession)) (poll : Nat → CheckSession) :
    RunResult × List (Nat × RunCall) :=
  if readOnly then (.denied readOnlyError, [])
  else
    match triggerResp.getD [] with
    | [] => (.notTriggered notTriggeredError id, [(0, .trigger id)])
    | session :: _ =>
      if !awaitResult then
        (.triggered "Check triggered." session.checkId session.name
          session.checkSessionId session.status session.runLocations
          session.startedAt session.checkSessionLink pollHint,
         [(0, .trigger id)])
      else
        let r := pollLoopAux poll session.checkSessionId
          session.checkSessionLink 0 1
        (r.1, (0, .trigger id) :: r.2)

theorem dropUndef_cons_none (j : String) (l : List (String × Option Value)) :
    dropUndef ((j, none) :: l) = dropUndef l := rfl

theorem dropUndef_cons_some (j : String) (v : Value)
    (l : List (String × Option Value)) :
    dropUndef ((j, some v) :: l) = (j, v) :: dropUndef l := rfl

theorem dropUndef_append (l₁ l₂ : List (String × Option Value)) :
    dropUndef (l₁ ++ l₂) = dropUndef l₁ ++ dropUndef l₂ :=
  List.filterMap_append l₁ l₂ _

theorem lookupA_append_some {α : Type} (l₁ l₂ : List (String × α)) (k : String)
    (v : α) (h : lookupA l₁ k = some v) : lookupA (l₁ ++ l₂) k = some v := by
  induction l₁ with
  | nil => simp [lookupA] at h
  | cons p rest ih =>
    by_cases hpk : p.1 = k
    · simp [lookupA, hpk] at h ⊢
      exact h
    · simp [lookupA, hpk] at h ⊢
      exact ih h

theorem lookupA_append_none {α : Type} (l₁ l₂ : List (String × α)) (k : String)
    (h : lookupA l₁ k = none) : lookupA (l₁ ++ l₂) k = lookupA l₂ k := by
  induction l₁ with
  | nil => simp [lookupA]
  | cons p rest ih =>
    by_cases hpk : p.1 = k
    · simp [lookupA, hpk] at h
    · simp [lookupA, hpk] at h ⊢
      exact ih h

theorem mem_of_lookupA {α : Type} (l : List (String × α)) (k : String) (v : α)
    (h : lookupA l k = some v) : (k, v) ∈ l := by
  induction l with
  | nil => simp [lookupA] at h
  | cons p rest ih =>
    by_cases hpk : p.1 = k
    · subst hpk
      simp [lookupA] at h
      simp [← h]
    · simp [lookupA, hpk] at h
      exact List.mem_cons_of_mem p (ih h)

theorem lookupA_dropUndef_mapkeys (keys : List String) (f : String → Option Value)
    (k : String) :
    lookupA (dropUndef (keys.map fun j => (j, f j))) k
      = if k ∈ keys then f k else none := by
  induction keys with
  | nil => simp [dropUndef, lookupA]
  | cons j rest ih =>
    by_cases hjk : j = k
    · subst hjk
      cases hf : f j with
      | none =>
        rw [List.map_cons, hf, dropUndef_cons_none, ih]
        by_cases hm : j ∈ rest <;> simp [hm, hf]
      | some v =>
        rw [List.map_cons, hf, dropUndef_cons_some]
        simp [lookupA]
    · cases hf : f j with
      | none =>
        rw [List.map_cons, hf, dropUndef_cons_none, ih]
        have hkj : ¬k = j := fun h => hjk h.symm
        simp [hkj]
      | some v =>
        rw [List.map_cons, hf, dropUndef_cons_some]
        simp only [lookupA, if_neg hjk, ih]
        have hkj : ¬k = j := fun h => hjk h.symm
        simp [hkj]

theorem lookupA_mapped_unsettable (current : List (String × Value))
    (u : UpdateRequest) (k : String) (hk : k ∉ settableKeys) :
    lookupA (dropUndef (current.map fun p =>
        if p.1 ∈ settableKeys then (p.1, u.get p.1) else (p.1, some p.2))) k
      = lookupA current k := by
  induction current with
  | nil => simp [dropUndef, lookupA]
  | cons p rest ih =>
    simp only [List.map_cons]
    by_cases hpk : p.1 = k
    · subst hpk
      rw [if_neg hk, dropUndef_cons_some]
      simp [lookupA]
    · by_cases hps : p.1 ∈ settableKeys
      · rw [if_pos hps]
        cases hg : u.get p.1 with
        | none =>
          rw [dropUndef_cons_none, ih]
          simp [lookupA, hpk]
        | some v =>
          rw [dropUndef_cons_some]
          simp [lookupA, hpk, ih]
      · rw [if_neg hps, dropUndef_cons_some]
        simp [lookupA, hpk, ih]

theorem lookupA_mapped_settable (current : List (String × Value))
    (u : UpdateRequest) (k : String) (hk : k ∈ settableKeys) :
    lookupA (dropUndef (current.map fun p =>
        if p.1 ∈ settableKeys then (p.1, u.get p.1) else (p.1, some p.2))) k
      = if (lookupA current k).isNone then none else u.get k := by
  induction current with
  | nil => simp [dropUndef, lookupA]
  | cons p rest ih =>
    simp only [List.map_cons]
    by_cases hpk : p.1 = k
    · subst hpk
      rw [if_pos hk]
      cases hg : u.get p.1 with
      | none =>
        rw [dropUndef_cons_none, ih]
        simp [lookupA, hg]
      | some v =>
        rw [dropUndef_cons_some]
        simp [lookupA, hg]
    · by_cases hps : p.1 ∈ settableKeys
      · rw [if_pos hps]
        cases hg : u.get p.1 with
        | none =>
          rw [dropUndef_cons_none, ih]
          simp [lookupA, hpk]
        | some v =>
          rw [dropUndef_cons_some]
          simp [lookupA, hpk, ih]
      · rw [if_neg hps, dropUndef_cons_some]
        simp [lookupA, hpk, ih]

theorem putBody_lookup_settable (current : List (String × Value))
    (u : UpdateRequest) (k : String) (hk : k ∈ settableKeys) :
    lookupA (putBody current u) k = u.get k := by
  unfold putBody jsSpread
  rw [dropUndef_append]
  have h1 := lookupA_mapped_settable current u k hk
  cases hc : lookupA current k with
  | some w =>
    rw [hc] at h1
    simp only [Option.isNone_some, Bool.false_eq_true, if_false] at h1
    cases hg : u.get k with
    | some v =>
      rw [hg] at h1
      exact lookupA_append_some _ _ _ _ h1
    | none =>
      rw [hg] at h1
      rw [lookupA_append_none _ _ _ h1, lookupA_dropUndef_mapkeys]
      simp [List.mem_filter, hc, hg]
  | none =>
    rw [hc] at h1
    simp only [Option.isNone_none, if_true] at h1
    rw [lookupA_append_none _ _ _ h1, lookupA_dropUndef_mapkeys]
    simp [List.mem_filter, hk, hc]

theorem putBody_lookup_unsettable (current : List (String × Value))
    (u : UpdateRequest) (k : String) (hk : k ∉ settableKeys) :
    lookupA (putBody current u) k = lookupA current k := by
  unfold putBody jsSpread
  rw [dropUndef_append]
  have h1 := lookupA_mapped_unsettable current u k hk
  cases hc : lookupA current k with
  | some w =>
    rw [hc] at h1
    rw [lookupA_append_some _ _ _ _ h1]
  | none =>
    rw [hc] at h1
    rw [lookupA_append_none _ _ _ h1, lookupA_dropUndef_mapkeys]
    simp [List.mem_filter, hk]

theorem pollLoopAux_progress (poll : Nat → CheckSession) (sid link : String)
    (h : ∀ m, (poll m).status = SessionStatus.PROGRESS) (n : Nat)
    (h1 : 1 ≤ n) (hn : n ≤ 41) :
    pollLoopAux poll sid link (3000 * (n - 1)) n
      = (timedOutResult sid link,
         (List.range' n (41 - n)).map fun i => (3000 * i, RunCall.poll sid)) := by
  rw [pollLoopAux.eq_def]
  by_cases hend : n = 41
  · subst hend
    have hge : ¬(3000 * (41 - 1) < 120000) := by omega
    rw [dif_neg hge]
    norm_num
  · have hlt : 3000 * (n - 1) < 120000 := by omega
    rw [dif_pos hlt, if_pos (h n)]
    have ih := pollLoopAux_progress poll sid link h (n + 1) (by omega) (by omega)
    have e2 : 3000 * (n + 1 - 1) = 3000 * n := by omega
    rw [e2] at ih
    have e1 : 3000 * (n - 1) + 3000 = 3000 * n := by omega
    rw [e1, ih]
    have e3 : 41 - n = (41 - (n + 1)) + 1 := by omega
    rw [e3, List.range'_succ]
    simp
termination_by 41 - n
decreasing_by omega

theorem pollLoopAux_completes (poll : Nat → CheckSession) (sid link : String)
    (N : Nat) (hN : (poll N).status ≠ SessionStatus.PROGRESS)
    (hprog : ∀ i, 1 ≤ i → i < N → (poll i).status = SessionStatus.PROGRESS)
    (n : Nat) (h1 : 1 ≤ n) (hn : n ≤ N) (h40 : N ≤ 40) :
    pollLoopAux poll sid link (3000 * (n - 1)) n
      = (completedResult (poll N),
         (List.range' n (N - n + 1)).map fun i => (3000 * i, RunCall.poll sid)) := by
  rw [pollLoopAux.eq_def]
  have hlt : 3000 * (n - 1) < 120000 := by omega
  rw [dif_pos hlt]
  by_cases hend : n = N
  · subst hend
    rw [if_neg hN]
    have e1 : 3000 * (n - 1) + 3000 = 3000 * n := by omega
    have e2 : n - n + 1 = 1 := by omega
    rw [e1, e2, List.range'_one]
    simp
  · have hlt2 : n < N := by omega
    rw [if_pos (hprog n h1 hlt2)]
    have ih := pollLoopAux_completes poll sid link N hN hprog (n + 1)
      (by omega) (by omega) h40
    have e2 : 3000 * (n + 1 - 1) = 3000 * n := by omega
    rw [e2] at ih
    have e1 : 3000 * (n - 1) + 3000 = 3000 * n := by omega
    rw [e1, ih]
    have e3 : N - n + 1 = (N - (n + 1) + 1) + 1 := by omega
    have e4 : List.range' n (N - n + 1)
        = n :: List.range' (n + 1) (N - (n + 1) + 1) := by
      rw [e3]
      exact List.range'_succ n (N - (n + 1) + 1) 1
    rw [e4]
    simp
termination_by N - n
decreasing_by omega

theorem pollLoopAux_calls (poll : Nat → CheckSession) (sid link : String)
    (elapsed n : Nat) :
    ∀ p ∈ (pollLoopAux poll sid link elapsed n).2, p.2 = RunCall.poll sid := by
  rw [pollLoopAux.eq_def]
  by_cases hlt : elapsed < 120000
  · rw [dif_pos hlt]
    by_cases hs : (poll n).status = SessionStatus.PROGRESS
    · rw [if_pos hs]
      intro p hp
      simp only [List.mem_cons] at hp
      rcases hp with hp | hp
      · rw [hp]
      · exact pollLoopAux_calls poll sid link (elapsed + 3000) (n + 1) p hp
    · rw [if_neg hs]
      intro p hp
      simp only [List.mem_singleton] at hp
      rw [hp]
  · rw [dif_neg hlt]
    intro p hp
    simp at hp
termination_by 120000 - elapsed
decreasing_by omega

theorem mem_entries_key (u : UpdateRequest) (k : String) (v : Value)
    (h : (k, v) ∈ u.entries) : k ∈ settableKeys := by
  unfold UpdateRequest.entries at h
  simp only [List.mem_append, List.mem_map, Option.mem_toList, Option.mem_def] at h
  rcases h with ((⟨a, ha, he⟩ | ⟨a, ha, he⟩) | ⟨a, ha, he⟩) | ⟨a, ha, he⟩ <;>
    (injection he with h1 h2; rw [← h1]; decide)

/-- C9: the read-only gate derived at startup is true (mutations denied)
for every value of the read-only configuration variable except the literal
string "false", including the unset case; only the exact value "false"
disables the gate. -/
theorem claim_C9_readonly_gate (apiKey accountId v : Option String)
    (cfg : ChecklyConfig) (h : getConfig apiKey accountId v = .ok cfg) :
    cfg.readOnly = true ↔ v ≠ some "false" := by
  unfold getConfig at h
  by_cases h1 : isFalsy apiKey
  · rw [if_pos h1] at h
    exact absurd h (by simp)
  · rw [if_neg h1] at h
    by_cases h2 : isFalsy accountId
    · rw [if_pos h2] at h
      exact absurd h (by simp)
    · rw [if_neg h2] at h
      injection h with h3
      rw [← h3]
      simp [bne_iff_ne]

theorem claim_C9_readonly_gate_witness :
    (getConfig (some "key") (some "acct") none
      = Except.ok { apiKey := "key", accountId := "acct", readOnly := true })
    ∧ (({ apiKey := "key", accountId := "acct", readOnly := true } :
          ChecklyConfig).readOnly = true ↔ (none : Option String) ≠ some "false") :=
  ⟨rfl, claim_C9_readonly_gate (some "key") (some "acct") none _ rfl⟩

/-- C3: with the read-only gate set, both update_check and run_check
return the structured denied result as their first step — a returned value
carrying an error field, not a thrown exception — and issue no remote
calls at all: no fetch, no write, and no trigger or poll. -/
theorem claim_C3_readonly_denies (id : String) (u : UpdateRequest)
    (confirm : Bool) (current putResp : List (String × Value))
    (id2 : String) (awaitResult : Bool) (trig : Option (List CheckSession))
    (poll : Nat → CheckSession) :
    updateCheck true id u confirm current putResp
      = (.denied readOnlyError, [])
    ∧ runCheck true id2 awaitResult trig poll = (.denied readOnlyError, []) :=
  ⟨rfl, rfl⟩

/-- C2: when every requested field equals the corresponding field of the
fetched current entity, the diff is empty and update_check returns the
no-changes result carrying an empty diff, identically for both values of
the confirm flag, having issued only the fetch and never a write. -/
theorem claim_C2_no_changes (id : String) (u : UpdateRequest) (confirm : Bool)
    (current putResp : List (String × Value))
    (h : ∀ p ∈ u.entries, lookupA current p.1 = some p.2) :
    updateCheck false id u confirm current putResp
      = (.noChanges "No changes detected." [], [UpdateCall.fetch id]) := by
  have hdiff : computeDiff current u = [] := by
    unfold computeDiff
    rw [List.filterMap_eq_nil_iff]
    intro p hp
    rw [if_pos (h p hp)]
  unfold updateCheck
  simp [hdiff]

theorem claim_C2_no_changes_witness :
    updateCheck false "chk-1"
        { script := none, name := some "a", activated := none, frequency := none }
        true [("id", Value.str "chk-1"), ("name", Value.str "a")] []
      = (.noChanges "No changes detected." [], [UpdateCall.fetch "chk-1"]) :=
  claim_C2_no_changes "chk-1" _ true _ [] (by decide)

/-- C6: with a non-empty diff and confirm false, update_check issues no
write (only the fetch), returns the dry-run result carrying the target id,
the current display name and the full diff, and — the workflow being a
pure function of the fetched current state — a second call with the same
inputs against the same fetched state returns the identical result. -/
theorem claim_C6_dry_run_idempotent (id : String) (u : UpdateRequest)
    (current putResp : List (String × Value))
    (h : computeDiff current u ≠ []) :
    updateCheck false id u false current putResp
      = (.dryRun "Dry run — pass confirm: true to apply." id
          (lookupA current "name") (computeDiff current u),
         [UpdateCall.fetch id])
    ∧ updateCheck false id u false current putResp
      = updateCheck false id u false current putResp := by
  refine ⟨?_, rfl⟩
  have hI : (computeDiff current u).isEmpty = false := List.isEmpty_eq_false.mpr h
  unfold updateCheck
  simp [hI]

theorem claim_C6_dry_run_idempotent_witness :
    (updateCheck false "chk-1"
        { script := none, name := some "b", activated := none, frequency := none }
        false [("name", Value.str "a")] []
      = (.dryRun "Dry run — pass confirm: true to apply." "chk-1"
          (lookupA [("name", Value.str "a")] "name")
          (computeDiff [("name", Value.str "a")]
            { script := none, name := some "b", activated := none,
              frequency := none }),
         [UpdateCall.fetch "chk-1"]))
    ∧ updateCheck false "chk-1"
        { script := none, name := some "b", activated := none, frequency := none }
        false [("name", Value.str "a")] []
      = updateCheck false "chk-1"
        { script := none, name := some "b", activated := none, frequency := none }
        false [("name", Value.str "a")] [] :=
  claim_C6_dry_run_idempotent "chk-1" _ _ [] (by decide)

/-- A concrete run session used by the concrete instantiations below. -/
def sampleSession (st : SessionStatus) : CheckSession :=
  { checkSessionId := "sess-1",
    checkSessionLink := "https://app.checklyhq.com/sessions/sess-1",
    checkId := "chk-1", checkType := "BROWSER", name := "my check",
    status := st, startedAt := "2026-01-01T00:00:00Z", stoppedAt := none,
    timeElapsed := 0, runLocations := ["eu-west-1"], results := none }

/-- A poll oracle whose session never leaves PROGRESS. -/
def pollAlwaysProgress : Nat → CheckSession :=
  fun _ => sampleSession SessionStatus.PROGRESS

/-- A poll oracle whose session is in PROGRESS at the first poll and
PASSED from the second poll on. -/
def pollThenPassed : Nat → CheckSession :=
  fun n => if n ≤ 1 then sampleSession SessionStatus.PROGRESS
           else sampleSession SessionStatus.PASSED

/-- C8: a trigger call returning zero sessions (or a response without a
sessions field) makes run_check return the structured not-triggerable
error result carrying the target id — a returned value, not a thrown
exception — with only the trigger call issued and no poll ever, whatever
the await flag. -/
theorem claim_C8_not_triggerable (id : String) (awaitResult : Bool)
    (trig : Option (List CheckSession)) (poll : Nat → CheckSession)
    (h : trig.getD [] = []) :
    runCheck false id awaitResult trig poll
      = (.notTriggered notTriggeredError id, [(0, RunCall.trigger id)]) := by
  unfold runCheck
  rw [h]
  rfl

theorem claim_C8_not_triggerable_witness :
    runCheck false "chk-1" true none pollAlwaysProgress
      = (.notTriggered notTriggeredError "chk-1",
         [(0, RunCall.trigger "chk-1")]) :=
  claim_C8_not_triggerable "chk-1" true none pollAlwaysProgress rfl

/-- C10: when the trigger returns one or more sessions only the first one
is used, whatever the others are: the immediate result is built from the
first session's fields alone, and on the awaited path every poll call in
the log names the first session's id. -/
theorem claim_C10_first_session_only (id : String) (s : CheckSession)
    (rest : List CheckSession) (poll : Nat → CheckSession) :
    runCheck false id false (some (s :: rest)) poll
      = (.triggered "Check triggered." s.checkId s.name s.checkSessionId
          s.status s.runLocations s.startedAt s.checkSessionLink pollHint,
         [(0, RunCall.trigger id)])
    ∧ ∀ p ∈ (runCheck false id true (some (s :: rest)) poll).2,
        p.2 = RunCall.trigger id ∨ p.2 = RunCall.poll s.checkSessionId := by
  constructor
  · rfl
  · intro p hp
    have hlog : (runCheck false id true (some (s :: rest)) poll).2
        = (0, RunCall.trigger id) ::
          (pollLoopAux poll s.checkSessionId s.checkSessionLink 0 1).2 := rfl
    rw [hlog] at hp
    rcases List.mem_cons.mp hp with hp | hp
    · left
      rw [hp]
    · right
      exact pollLoopAux_calls poll s.checkSessionId s.checkSessionLink 0 1 p hp

/-- C5: on the awaited path, when the polled status first leaves PROGRESS
at the N-th poll (a poll that happens, i.e. N is within the 40-poll budget
of the 120-second deadline), the loop returns exactly at poll N with the
completion result built from that polled session — session id, target id
and name, final status, run locations, start and stop times, elapsed-time
measure, reference link and the results collection (the empty collection
when the polled session has none) — and the call log is the trigger
followed by exactly polls 1 through N, so no further poll is issued. -/
theorem claim_C5_completes_at_poll_N (id : String) (s : CheckSession)
    (rest : List CheckSession) (poll : Nat → CheckSession) (N : Nat)
    (h1 : 1 ≤ N) (h40 : N ≤ 40)
    (hprog : ∀ i, 1 ≤ i → i < N → (poll i).status = SessionStatus.PROGRESS)
    (hN : (poll N).status ≠ SessionStatus.PROGRESS) :
    runCheck false id true (some (s :: rest)) poll
      = (completedResult (poll N),
         (0, RunCall.trigger id) ::
           (List.range' 1 N).map fun i =>
             (3000 * i, RunCall.poll s.checkSessionId)) := by
  have hl := pollLoopAux_completes poll s.checkSessionId s.checkSessionLink N
    hN hprog 1 (le_refl 1) h1 h40
  have e : (3000 * (1 - 1) : Nat) = 0 := by norm_num
  rw [e] at hl
  have e2 : N - 1 + 1 = N := by omega
  rw [e2] at hl
  show ((pollLoopAux poll s.checkSessionId s.checkSessionLink 0 1).1,
        (0, RunCall.trigger id) ::
          (pollLoopAux poll s.checkSessionId s.checkSessionLink 0 1).2) = _
  rw [hl]

theorem claim_C5_completes_at_poll_N_witness :
    runCheck false "chk-1" true (some [sampleSession SessionStatus.PROGRESS])
        pollThenPassed
      = (completedResult (pollThenPassed 2),
         (0, RunCall.trigger "chk-1") ::
           (List.range' 1 2).map fun i =>
             (3000 * i,
              RunCall.poll (sampleSession SessionStatus.PROGRESS).checkSessionId)) :=
  claim_C5_completes_at_poll_N "chk-1" _ [] pollThenPassed 2 (by decide)
    (by decide)
    (by
      intro i hi1 hi2
      have he : i = 1 := by omega
      subst he
      rfl)
    (by decide)

/-- C4: on the awaited path with a session that never leaves PROGRESS, the
loop runs its full 40-poll budget and returns the timeout result (session
id and reference link with a still-in-progress hint); the call log is the
trigger followed by the 40 polls at 3-second intervals, every logged call
issued at or before the 120 000 ms deadline and none after it. -/
theorem claim_C4_times_out (id : String) (s : CheckSession)
    (rest : List CheckSession) (poll : Nat → CheckSession)
    (h : ∀ m, (poll m).status = SessionStatus.PROGRESS) :
    runCheck false id true (some (s :: rest)) poll
      = (timedOutResult s.checkSessionId s.checkSessionLink,
         (0, RunCall.trigger id) ::
           (List.range' 1 40).map fun i =>
             (3000 * i, RunCall.poll s.checkSessionId))
    ∧ ∀ p ∈ (runCheck false id true (some (s :: rest)) poll).2,
        p.1 ≤ 120000 := by
  have hl := pollLoopAux_progress poll s.checkSessionId s.checkSessionLink h 1
    (le_refl 1) (by omega)
  have e : (3000 * (1 - 1) : Nat) = 0 := by norm_num
  rw [e] at hl
  norm_num at hl
  have hrun : runCheck false id true (some (s :: rest)) poll
      = (timedOutResult s.checkSessionId s.checkSessionLink,
         (0, RunCall.trigger id) ::
           (List.range' 1 40).map fun i =>
             (3000 * i, RunCall.poll s.checkSessionId)) := by
    show ((pollLoopAux poll s.checkSessionId s.checkSessionLink 0 1).1,
          (0, RunCall.trigger id) ::
            (pollLoopAux poll s.checkSessionId s.checkSessionLink 0 1).2) = _
    rw [hl]
  refine ⟨hrun, ?_⟩
  rw [hrun]
  intro p hp
  rcases List.mem_cons.mp hp with hp | hp
  · rw [hp]
    norm_num
  · obtain ⟨i, hi, hpe⟩ := List.mem_map.mp hp
    have hib := List.mem_range'_1.mp hi
    rw [← hpe]
    show 3000 * i ≤ 120000
    omega

theorem claim_C4_times_out_witness :
    (∀ m, (pollAlwaysProgress m).status = SessionStatus.PROGRESS)
    ∧ runCheck false "chk-1" true (some [sampleSession SessionStatus.PROGRESS])
        pollAlwaysProgress
      = (timedOutResult (sampleSession SessionStatus.PROGRESS).checkSessionId
          (sampleSession SessionStatus.PROGRESS).checkSessionLink,
         (0, RunCall.trigger "chk-1") ::
           (List.range' 1 40).map fun i =>
             (3000 * i,
              RunCall.poll (sampleSession SessionStatus.PROGRESS).checkSessionId)) :=
  ⟨fun _ => rfl,
   (claim_C4_times_out "chk-1" _ [] pollAlwaysProgress (fun _ => rfl)).1⟩

/-- C7: for a changed string-valued field of the diff, the displayed diff
entry shows the proposed value truncated to its first 120 characters plus
an ellipsis exactly when it is longer than 120 characters and unchanged
otherwise, while the value for that field in the written PUT payload is
the full untruncated requested value: truncation affects display only,
for strings of every length. -/
theorem claim_C7_truncation_display_only (current : List (String × Value))
    (u : UpdateRequest) (k : String) (s : String)
    (hget : u.get k = some (Value.str s))
    (hch : lookupA current k ≠ some (Value.str s)) :
    (k, { fromVal := (lookupA current k).map truncVal,
          toVal := Value.str (if 120 < s.length
            then jsSlice s 120 ++ "…" else s) }) ∈ computeDiff current u
    ∧ lookupA (putBody current u) k = some (Value.str s) := by
  have hmem : (k, Value.str s) ∈ u.entries := mem_of_lookupA _ _ _ hget
  have hk : k ∈ settableKeys := mem_entries_key u k (Value.str s) hmem
  constructor
  · unfold computeDiff
    rw [List.mem_filterMap]
    refine ⟨(k, Value.str s), hmem, ?_⟩
    rw [if_neg hch]
    by_cases hc : 120 < s.length <;> simp [truncVal, hc]
  · rw [putBody_lookup_settable current u k hk, hget]

theorem claim_C7_truncation_display_only_witness :
    ((("script",
        { fromVal := (lookupA [("script", Value.str "old")] "script").map truncVal,
          toVal := Value.str (if 120 <
              ("aaaaaaaaaaaaaaaaaaaaaaaaaaaaaaaaaaaaaaaaaaaaaaaaaaaaaaaaaaaaaaaaaaaaaaaaaaaaaaaaaaaaaaaaaaaaaaaaaaaaaaaaaaaaaaaaaaaaaaaaaaaaaa" : String).length
            then jsSlice "aaaaaaaaaaaaaaaaaaaaaaaaaaaaaaaaaaaaaaaaaaaaaaaaaaaaaaaaaaaaaaaaaaaaaaaaaaaaaaaaaaaaaaaaaaaaaaaaaaaaaaaaaaaaaaaaaaaaaaaaaaaaaa" 120 ++ "…"
            else "aaaaaaaaaaaaaaaaaaaaaaaaaaaaaaaaaaaaaaaaaaaaaaaaaaaaaaaaaaaaaaaaaaaaaaaaaaaaaaaaaaaaaaaaaaaaaaaaaaaaaaaaaaaaaaaaaaaaaaaaaaaaaa") }) :
        String × DiffEntry)
      ∈ computeDiff [("script", Value.str "old")]
        { script := some "aaaaaaaaaaaaaaaaaaaaaaaaaaaaaaaaaaaaaaaaaaaaaaaaaaaaaaaaaaaaaaaaaaaaaaaaaaaaaaaaaaaaaaaaaaaaaaaaaaaaaaaaaaaaaaaaaaaaaaaaaaaaaa",
          name := none, activated := none, frequency := none })
    ∧ lookupA (putBody [("script", Value.str "old")]
        { script := some "aaaaaaaaaaaaaaaaaaaaaaaaaaaaaaaaaaaaaaaaaaaaaaaaaaaaaaaaaaaaaaaaaaaaaaaaaaaaaaaaaaaaaaaaaaaaaaaaaaaaaaaaaaaaaaaaaaaaaaaaaaaaaa",
          name := none, activated := none, frequency := none }) "script"
      = some (Value.str "aaaaaaaaaaaaaaaaaaaaaaaaaaaaaaaaaaaaaaaaaaaaaaaaaaaaaaaaaaaaaaaaaaaaaaaaaaaaaaaaaaaaaaaaaaaaaaaaaaaaaaaaaaaaaaaaaaaaaaaaaaaaaa") :=
  claim_C7_truncation_display_only [("script", Value.str "old")] _ "script"
    "aaaaaaaaaaaaaaaaaaaaaaaaaaaaaaaaaaaaaaaaaaaaaaaaaaaaaaaaaaaaaaaaaaaaaaaaaaaaaaaaaaaaaaaaaaaaaaaaaaaaaaaaaaaaaaaaaaaaaaaaaaaaaa"
    (by decide) (by decide)

/-- C1 fails on the code: an update_check call that reaches the apply step
(non-empty diff, confirm true) with the script field absent from the
request writes a PUT payload from which the script field (and every other
settable field absent from both the request and the appended spread tail)
has vanished, instead of carrying the pre-write fetched value.  The tool
handler materializes all four settable keys of the updates object, absent
fields holding undefined, so the spread overwrites the fetched values and
JSON serialization then drops those keys — contradicting the code's own
comment that the PUT requires the full object merged from current. -/
theorem claim_C1_absent_field_dropped :
    (updateCheck false "chk-1"
        { script := none, name := some "b", activated := none,
          frequency := none }
        true
        [("id", Value.str "chk-1"), ("name", Value.str "a"),
         ("script", Value.str "body"), ("frequency", Value.num 5)]
        [("id", Value.str "chk-1"), ("name", Value.str "b")]).2
      = [UpdateCall.fetch "chk-1",
         UpdateCall.put "chk-1"
           [("id", Value.str "chk-1"), ("name", Value.str "b")]]
    ∧ lookupA [("id", Value.str "chk-1"), ("name", Value.str "a"),
         ("script", Value.str "body"), ("frequency", Value.num 5)] "script"
      = some (Value.str "body")
    ∧ lookupA (putBody
        [("id", Value.str "chk-1"), ("name", Value.str "a"),
         ("script", Value.str "body"), ("frequency", Value.num 5)]
        { script := none, name := some "b", activated := none,
          frequency := none }) "script"
      = none := by decide
